import Mathlib

/-!
Shallow embedding of the license backend:
`src/server/routes/license.ts` (handleLicenseVerify, handleLicenseActivate)
and `src/server/lib/adminAuth.ts` (verifyAdminToken, isAdminUser).

The Firestore document store is modelled as an explicit state record; each
route handler becomes a pure state transformer `State → ... → Result × State`
with the current time passed explicitly (the code reads `Date.now()`).
Document fields that the code defends with `|| defaultValue` are modelled as
`Option` fields, with JavaScript truthiness made explicit (`jsOrS`,
`jsTruthyS`); the raw JavaScript `<` comparison on possibly-absent numeric
fields is `jsLtNat` (any comparison involving `undefined` is false).

The file `src/server/lib/licenseUtils.ts` is imported by the routes but is
not part of the sources; its three functions are modelled from the spec
(marked `Modelled from the spec:` below).
-/

namespace LicenseApp

/-- JavaScript `o || d` for an optional string: `undefined`/`null` and the
empty string are falsy. -/
def jsOrS : Option String → String → String
  | none, d => d
  | some s, d => if s == "" then d else s

/-- JavaScript truthiness of an optional string request field. -/
def jsTruthyS : Option String → Bool
  | none => false
  | some s => !(s == "")

/-- JavaScript `s.startsWith(pre)`: the characters of `pre` are a prefix of
the characters of `s`. -/
def jsStartsWith (s pre : String) : Bool :=
  pre.toList.isPrefixOf s.toList

/-- JavaScript `a < b` on possibly-absent numeric fields: a comparison
involving `undefined` is false. -/
def jsLtNat : Option Nat → Option Nat → Bool
  | some a, some b => decide (a < b)
  | _, _ => false

/-- A document in the `users` collection. `docId` is the Firestore document
id; `id` is an optional `id` field stored inside the document (the code reads
`userData.id || userRef?.id || ""`). -/
structure UserDoc where
  docId : String
  id : Option String
  email : String
  messageCount : Option Nat
  isBanned : Option Bool
  banReason : Option String
  isSuspended : Option Bool
deriving DecidableEq

/-- The `users/{id}/license/current` document. -/
structure License where
  plan : String
  licenseKey : Option String
  expiresAt : Int
  isActive : Bool
  messageCount : Option Nat
  messageLimit : Option Nat
  lastResetDate : Option Int
  userId : Option String
deriving DecidableEq

/-- A document in the `licenseKeys` collection. -/
structure LicenseKeyDoc where
  key : String
  plan : String
  messageLimit : Option Nat
  expiresAt : Int
  isActive : Bool
  usedBy : Option String
deriving DecidableEq

/-- A document in a user's `warnings` subcollection (with its doc id). -/
structure Warning where
  id : String
  isRead : Bool
  message : String
deriving DecidableEq

/-- The `config/maintenance` document. -/
structure MaintenanceConfig where
  enabled : Option Bool
deriving DecidableEq

/-- The document-store state read and written by the route handlers.
Licenses and warnings are keyed by the user-id path segment. -/
structure DBState where
  users : List UserDoc
  licenses : List (String × License)
  warnings : List (String × List Warning)
  licenseKeys : List LicenseKeyDoc
  maintenance : Option MaintenanceConfig
deriving DecidableEq

/-- A user-facing alert in the verification response. -/
structure SecurityAlert where
  type : String
  title : String
  message : String
  severity : String
  dismissible : Bool
deriving DecidableEq

/-- The `LicenseVerificationResponse` payload. -/
structure Verdict where
  valid : Bool
  plan : String
  messageLimit : Nat
  messageCount : Nat
  canSendMessage : Bool
  expiresAt : Int
  warnings : List Warning
  isBanned : Bool
  isSuspended : Bool
  alerts : List SecurityAlert
  maintenanceMode : Bool
deriving DecidableEq

/-- A route handler outcome: an HTTP-style error (status code and message) or
a verdict payload. -/
inductive VerifyResult where
  | error (status : Nat) (msg : String)
  | ok (verdict : Verdict)
deriving DecidableEq

def VerifyResult.isOk : VerifyResult → Bool
  | .ok _ => true
  | .error _ _ => false

def VerifyResult.verdict? : VerifyResult → Option Verdict
  | .ok v => some v
  | .error _ _ => none

/-- Modelled from the spec: `isLicenseExpired` is imported from
`src/server/lib/licenseUtils`, a file not present in the sources.
Spec section 4.3: `isExpired(expiresAt, now)` is true iff `now > expiresAt`.
Timestamps are epoch milliseconds. -/
def isLicenseExpired (expiresAt now : Int) : Bool :=
  decide (expiresAt < now)

/-- Modelled from the spec: `getDaysRemaining` from the missing
`licenseUtils` module. Spec section 4.3: ceiling of `expiresAt - now` in
whole days; zero or negative when expired. -/
def getDaysRemaining (expiresAt now : Int) : Int :=
  -((-(expiresAt - now)).fdiv 86400000)

/-- Modelled from the spec: the plan-to-quota map used by `validateLicense`
("messageCount >= messageLimit when a limit applies"). The spec fixes only
the free tier "Gratuit" at limit 10; the paid tiers' limits are unspecified
and are taken as "no limit applies". -/
def planQuota (plan : String) : Option Nat :=
  if plan == "Gratuit" then some 10 else none

/-- Result of `validateLicense`. -/
structure ValidationResult where
  valid : Bool
  reason : Option String
deriving DecidableEq

/-- Modelled from the spec: `validateLicense` from the missing
`licenseUtils` module. Spec section 4.3: valid is false if banned, suspended,
expired while the plan is a paid tier (the free tier "Gratuit" is exempt from
expiry-based invalidation), or the message quota is exhausted when a limit
applies; otherwise true. -/
def validateLicense (plan : String) (messageCount : Nat) (expiresAt : Int)
    (isBanned isSuspended : Bool) (now : Int) : ValidationResult :=
  if isBanned then { valid := false, reason := some "banned" }
  else if isSuspended then { valid := false, reason := some "suspended" }
  else if isLicenseExpired expiresAt now && !(plan == "Gratuit") then
    { valid := false, reason := some "expired" }
  else
    match planQuota plan with
    | some lim =>
        if lim ≤ messageCount then { valid := false, reason := some "limit" }
        else { valid := true, reason := none }
    | none => { valid := true, reason := none }

/-- The expired-license modal alert pushed by `handleLicenseVerify`. -/
def expiredAlert : SecurityAlert :=
  { type := "modal"
    title := "Licence Expirée"
    message := "Votre licence a expiré. Veuillez renouveler votre abonnement."
    severity := "critical"
    dismissible := false }

/-- The expiring-soon banner alert, with the days remaining interpolated. -/
def bannerAlert (daysRemaining : Int) : SecurityAlert :=
  { type := "banner"
    title := "Licence Expires Bientôt"
    message := "Votre licence expire dans " ++ toString daysRemaining ++ " jour(s)."
    severity := "warning"
    dismissible := true }

/-- The banned-account modal alert; `banReason || "Non spécifiée"`. -/
def bannedAlert (banReason : Option String) : SecurityAlert :=
  { type := "modal"
    title := "Compte Banni"
    message := "Votre compte a été banni. Raison: " ++ jsOrS banReason "Non spécifiée"
    severity := "critical"
    dismissible := false }

/-- The suspended-account modal alert. -/
def suspendedAlert : SecurityAlert :=
  { type := "modal"
    title := "Compte Suspendu"
    message := "Votre compte a été temporairement suspendu."
    severity := "critical"
    dismissible := false }

/-- The alert-push sequence of `handleLicenseVerify` (license.ts lines
93-131): expired modal for a non-free plan, else the expiring-soon banner
when `daysRemaining <= 7 && daysRemaining > 0`; then the banned modal when
the user is banned; then the suspended modal when the user is suspended. -/
def buildAlerts (isExpired : Bool) (plan : String) (daysRemaining : Int)
    (isBanned : Bool) (banReason : Option String) (isSuspended : Bool) :
    List SecurityAlert :=
  (if isExpired && !(plan == "Gratuit") then [expiredAlert]
   else if daysRemaining ≤ 7 ∧ 0 < daysRemaining then [bannerAlert daysRemaining]
   else [])
  ++ (if isBanned then [bannedAlert banReason] else [])
  ++ (if isSuspended then [suspendedAlert] else [])

/-- `getMaintenanceMode`: `configSnapshot.data()?.enabled || false`. -/
def getMaintenanceMode (st : DBState) : Bool :=
  (st.maintenance.bind MaintenanceConfig.enabled).getD false

/-- The user-id path segment used by the verify flow for the license and
warnings subcollections: `userData.id || userRef?.id || ""`. -/
def effId (u : UserDoc) : String :=
  jsOrS u.id (jsOrS (some u.docId) "")

/-- The synthesized free-tier verdict returned when a user has no
`license/current` document (license.ts lines 52-68). -/
def freeVerdict (st : DBState) (now : Int) (u : UserDoc) : Verdict :=
  { valid := false
    plan := "Gratuit"
    messageLimit := 10
    messageCount := u.messageCount.getD 0
    canSendMessage := decide (u.messageCount.getD 0 < 10)
    expiresAt := now + 365 * 24 * 60 * 60 * 1000
    warnings := []
    isBanned := u.isBanned.getD false
    isSuspended := u.isSuspended.getD false
    alerts := []
    maintenanceMode := getMaintenanceMode st }

/-- The verdict computed when a license document exists (license.ts lines
71-150). `canSendMessage` uses the raw field comparison
`licenseData.messageCount < licenseData.messageLimit` (no `|| 0` fallback),
while the reported `messageCount`/`messageLimit` use `|| 0`. -/
def licenseVerdict (st : DBState) (now : Int) (u : UserDoc) (l : License) : Verdict :=
  { valid := (validateLicense l.plan (l.messageCount.getD 0) l.expiresAt
      (u.isBanned.getD false) (u.isSuspended.getD false) now).valid
    plan := l.plan
    messageLimit := l.messageLimit.getD 0
    messageCount := l.messageCount.getD 0
    canSendMessage :=
      (validateLicense l.plan (l.messageCount.getD 0) l.expiresAt
        (u.isBanned.getD false) (u.isSuspended.getD false) now).valid
      && jsLtNat l.messageCount l.messageLimit
      && !(isLicenseExpired l.expiresAt now)
    expiresAt := l.expiresAt
    warnings := ((st.warnings.lookup (effId u)).getD []).filter (fun w => w.isRead == false)
    isBanned := u.isBanned.getD false
    isSuspended := u.isSuspended.getD false
    alerts := buildAlerts (isLicenseExpired l.expiresAt now) l.plan
      (getDaysRemaining l.expiresAt now) (u.isBanned.getD false) u.banReason
      (u.isSuspended.getD false)
    maintenanceMode := getMaintenanceMode st }

/-- `handleLicenseVerify` as a state transformer. The handler performs only
reads, so every branch returns the store unchanged. -/
def handleLicenseVerify (st : DBState) (now : Int)
    (email licenseKey deviceId : Option String) : VerifyResult × DBState :=
  if !(jsTruthyS email) || !(jsTruthyS deviceId) then
    (.error 400 "Email and device ID are required", st)
  else
    match st.users.find? (fun u => u.email == email.getD "") with
    | none => (.error 404 "User not found", st)
    | some u =>
      match st.licenses.lookup (effId u) with
      | none => (.ok (freeVerdict st now u), st)
      | some l => (.ok (licenseVerdict st now u l), st)

/-- Key normalization in `handleLicenseActivate`: strip every dash
character, then uppercase. -/
def normalizeKey (s : String) : String :=
  String.mk ((s.toList.filter (fun c => c != '-')).map Char.toUpper)

/-- The field values written by the `updateDoc` branch of activation onto an
existing `license/current` document (merge semantics: unnamed fields keep
their old values). -/
def mergeActivation (old : License) (kd : LicenseKeyDoc) (clean : String)
    (now : Int) : License :=
  { old with
    plan := kd.plan
    licenseKey := some clean
    expiresAt := kd.expiresAt
    isActive := true
    messageCount := some 0
    messageLimit := some (kd.messageLimit.getD 0)
    lastResetDate := some now }

/-- The document written by the `setDoc` fallback branch of activation (it
additionally stores `userId`). -/
def createdLicense (kd : LicenseKeyDoc) (clean : String) (now : Int)
    (userId : String) : License :=
  { plan := kd.plan
    licenseKey := some clean
    expiresAt := kd.expiresAt
    isActive := true
    messageCount := some 0
    messageLimit := some (kd.messageLimit.getD 0)
    lastResetDate := some now
    userId := some userId }

/-- The update-else-create upsert of activation: `updateDoc` fails when the
document does not exist, in which case the catch handler runs `setDoc`. -/
def upsertLicense (ls : List (String × License)) (userId : String)
    (kd : LicenseKeyDoc) (clean : String) (now : Int) : List (String × License) :=
  match ls.lookup userId with
  | some _ => ls.map (fun p => if p.1 == userId then (p.1, mergeActivation p.2 kd clean now) else p)
  | none => ls ++ [(userId, createdLicense kd clean now userId)]

/-- The unconditional `updateDoc(userDoc.ref, {isBanned:false, isSuspended:false})`
after activation. -/
def clearFlags (users : List UserDoc) (docId : String) : List UserDoc :=
  users.map (fun w =>
    if w.docId == docId then { w with isBanned := some false, isSuspended := some false } else w)

/-- `handleLicenseActivate` as a state transformer (license.ts lines
160-262). Note that the matched `licenseKeys` document is never written: the
handler reads `usedBy` for the exclusivity check but does not set it. -/
def handleLicenseActivate (st : DBState) (now : Int)
    (email licenseKey deviceId : Option String) : VerifyResult × DBState :=
  if !(jsTruthyS email) || !(jsTruthyS licenseKey) || !(jsTruthyS deviceId) then
    (.error 400 "Email, license key, and device ID are required", st)
  else
    match st.users.find? (fun u => u.email == email.getD "") with
    | none => (.error 404 "User not found", st)
    | some u =>
      match st.licenseKeys.find? (fun k => k.key == normalizeKey (licenseKey.getD "") && k.isActive) with
      | none => (.error 404 "Invalid or inactive license key", st)
      | some kd =>
        if jsTruthyS kd.usedBy && !(kd.usedBy.getD "" == u.docId) then
          (.error 403 "This license key is already in use by another account", st)
        else
          let clean := normalizeKey (licenseKey.getD "")
          let st2 : DBState :=
            { st with
              licenses := upsertLicense st.licenses u.docId kd clean now
              users := clearFlags st.users u.docId }
          (.ok { valid := true
                 plan := kd.plan
                 messageLimit := kd.messageLimit.getD 0
                 messageCount := 0
                 canSendMessage := true
                 expiresAt := kd.expiresAt
                 warnings := []
                 isBanned := false
                 isSuspended := false
                 alerts := []
                 maintenanceMode := getMaintenanceMode st2 }, st2)

/-- Custom claims attached to an identity record; the code reads the
boolean claim named `admin` with a strict `=== true` comparison. -/
structure CustomClaims where
  admin : Option Bool

/-- A decoded identity token (`verifyIdToken` result). -/
structure DecodedToken where
  uid : String
  email : Option String
  customClaims : Option CustomClaims

/-- An identity-provider user record (`getUser` result). -/
structure UserRecord where
  customClaims : Option CustomClaims

/-- The external identity provider, as an oracle: each call either returns a
value or raises an error (caught by the try/catch in `adminAuth.ts`). -/
structure AuthProvider where
  verifyIdToken : String → Except String DecodedToken
  getUser : String → Except String UserRecord

/-- The result object of `verifyAdminToken`. -/
structure AdminCheck where
  isAdmin : Bool
  uid : Option String
  email : Option String
deriving DecidableEq

/-- `verifyAdminToken` from `src/server/lib/adminAuth.ts`: reject a missing
or non-Bearer authorization header, decode the token after the 7-character
"Bearer " prefix, and read the `admin` custom claim; the surrounding
try/catch maps any provider error to `isAdmin = false`. -/
def verifyAdminToken (auth : AuthProvider) (authorization : Option String) : AdminCheck :=
  match authorization with
  | none => { isAdmin := false, uid := none, email := none }
  | some h =>
    if !(jsStartsWith h "Bearer ") then { isAdmin := false, uid := none, email := none }
    else
      match auth.verifyIdToken (h.drop 7) with
      | .error _ => { isAdmin := false, uid := none, email := none }
      | .ok t =>
        { isAdmin := (t.customClaims.getD { admin := none }).admin == some true
          uid := some t.uid
          email := t.email }

/-- `isAdminUser` from `src/server/lib/adminAuth.ts`: fetch the user record
and read the `admin` claim; any error (including user-not-found) is caught
and mapped to `false`. -/
def isAdminUser (auth : AuthProvider) (uid : String) : Bool :=
  match auth.getUser uid with
  | .error _ => false
  | .ok r => (r.customClaims.getD { admin := none }).admin == some true

/-! Concrete store states used as witnesses and counterexamples. -/

/-- A banned user who has a license record. -/
def cUser1 : UserDoc :=
  { docId := "u1", id := none, email := "u1@x", messageCount := some 0,
    isBanned := some true, banReason := some "fraude", isSuspended := none }

def cLicense1 : License :=
  { plan := "Pro", licenseKey := none, expiresAt := 999999999999, isActive := true,
    messageCount := some 0, messageLimit := some 100, lastResetDate := none, userId := none }

def st1 : DBState :=
  { users := [cUser1], licenses := [("u1", cLicense1)], warnings := [],
    licenseKeys := [], maintenance := none }

/-- A banned user with no license record. -/
def cUserB : UserDoc :=
  { docId := "u2", id := none, email := "u2@x", messageCount := some 0,
    isBanned := some true, banReason := some "fraude", isSuspended := some false }

def stB : DBState :=
  { users := [cUserB], licenses := [], warnings := [], licenseKeys := [],
    maintenance := none }

/-- An unbanned user whose "Pro" license is already expired at time 10. -/
def cUser3 : UserDoc :=
  { docId := "u3", id := none, email := "u3@x", messageCount := some 1,
    isBanned := none, banReason := none, isSuspended := none }

def cLicense3 : License :=
  { plan := "Pro", licenseKey := none, expiresAt := 0, isActive := true,
    messageCount := some 1, messageLimit := some 100, lastResetDate := none, userId := none }

def st3 : DBState :=
  { users := [cUser3], licenses := [("u3", cLicense3)], warnings := [],
    licenseKeys := [], maintenance := none }

/-- A user with 3 legacy messages and no license record. -/
def cUser4 : UserDoc :=
  { docId := "u4", id := none, email := "u4@x", messageCount := some 3,
    isBanned := none, banReason := none, isSuspended := none }

def st4 : DBState :=
  { users := [cUser4], licenses := [], warnings := [], licenseKeys := [],
    maintenance := none }

/-- A license document whose `messageCount` field is absent while
`messageLimit` is 5; not expired at time 0. -/
def cUser5 : UserDoc :=
  { docId := "u5", id := none, email := "u5@x", messageCount := some 0,
    isBanned := none, banReason := none, isSuspended := none }

def cLicense5 : License :=
  { plan := "Gratuit", licenseKey := none, expiresAt := 1000, isActive := true,
    messageCount := none, messageLimit := some 5, lastResetDate := none, userId := none }

def st5 : DBState :=
  { users := [cUser5], licenses := [("u5", cLicense5)], warnings := [],
    licenseKeys := [], maintenance := none }

def res5 : VerifyResult :=
  (handleLicenseVerify st5 0 (some "u5@x") none (some "d")).1

/-- A well-formed "Pro" license (both quota fields present), not expired. -/
def cLicense5w : License :=
  { plan := "Pro", licenseKey := none, expiresAt := 6048000000, isActive := true,
    messageCount := some 2, messageLimit := some 100, lastResetDate := none, userId := none }

def st5w : DBState :=
  { users := [cUser5], licenses := [("u5", cLicense5w)], warnings := [],
    licenseKeys := [], maintenance := none }

/-- A user requesting activation of a key already bound to another account. -/
def cUser6 : UserDoc :=
  { docId := "u6", id := none, email := "u6@x", messageCount := some 0,
    isBanned := none, banReason := none, isSuspended := none }

def cKey6 : LicenseKeyDoc :=
  { key := "ABCD1234", plan := "Pro", messageLimit := some 100, expiresAt := 999,
    isActive := true, usedBy := some "otherUser" }

def st6 : DBState :=
  { users := [cUser6], licenses := [], warnings := [], licenseKeys := [cKey6],
    maintenance := none }

/-- A fresh key (`usedBy` unset) and a user redeeming it. -/
def cUser2a : UserDoc :=
  { docId := "u2a", id := none, email := "u2a@x", messageCount := some 0,
    isBanned := none, banReason := none, isSuspended := none }

def cKey2 : LicenseKeyDoc :=
  { key := "ABCD1234", plan := "Pro", messageLimit := some 100, expiresAt := 999,
    isActive := true, usedBy := none }

def st2cb : DBState :=
  { users := [cUser2a], licenses := [], warnings := [], licenseKeys := [cKey2],
    maintenance := none }

def res2cb : VerifyResult × DBState :=
  handleLicenseActivate st2cb 0 (some "u2a@x") (some "ABCD-1234") (some "d")

/-- A license with exactly 7 days remaining at time 0, and one expired 5 ms
before time 0. -/
def cUser7 : UserDoc :=
  { docId := "u7", id := none, email := "u7@x", messageCount := some 0,
    isBanned := none, banReason := none, isSuspended := none }

def cLicense7a : License :=
  { plan := "Pro", licenseKey := none, expiresAt := 604800000, isActive := true,
    messageCount := some 0, messageLimit := some 100, lastResetDate := none, userId := none }

def cLicense7b : License :=
  { plan := "Pro", licenseKey := none, expiresAt := -5, isActive := true,
    messageCount := some 0, messageLimit := some 100, lastResetDate := none, userId := none }

def st7a : DBState :=
  { users := [cUser7], licenses := [("u7", cLicense7a)], warnings := [],
    licenseKeys := [], maintenance := none }

def st7b : DBState :=
  { users := [cUser7], licenses := [("u7", cLicense7b)], warnings := [],
    licenseKeys := [], maintenance := none }

/-- An identity provider on which every call fails. -/
def cAuthFail : AuthProvider :=
  { verifyIdToken := fun _ => .error "invalid-token"
    getUser := fun _ => .error "user-not-found" }

/-! Reduction lemmas for the verify handler. -/

/-- When the user lookup succeeds and a license document exists, the verify
handler returns `licenseVerdict` and leaves the store unchanged. -/
theorem verify_found (st : DBState) (now : Int) (e d : String) (lk : Option String)
    (u : UserDoc) (l : License)
    (he : (e == "") = false) (hd : (d == "") = false)
    (hu : st.users.find? (fun w => w.email == e) = some u)
    (hl : st.licenses.lookup (effId u) = some l) :
    handleLicenseVerify st now (some e) lk (some d) = (.ok (licenseVerdict st now u l), st) := by
  unfold handleLicenseVerify
  simp [jsTruthyS, he, hd, hu, hl]

/-- When the user lookup succeeds and no license document exists, the verify
handler returns the synthesized `freeVerdict` and leaves the store
unchanged. -/
theorem verify_free (st : DBState) (now : Int) (e d : String) (lk : Option String)
    (u : UserDoc)
    (he : (e == "") = false) (hd : (d == "") = false)
    (hu : st.users.find? (fun w => w.email == e) = some u)
    (hl : st.licenses.lookup (effId u) = none) :
    handleLicenseVerify st now (some e) lk (some d) = (.ok (freeVerdict st now u), st) := by
  unfold handleLicenseVerify
  simp [jsTruthyS, he, hd, hu, hl]

/-- The verify handler performs no writes: every branch returns the input
store. -/
theorem verify_reads_only (st : DBState) (now : Int)
    (email licenseKey deviceId : Option String) :
    (handleLicenseVerify st now email licenseKey deviceId).2 = st := by
  unfold handleLicenseVerify
  split
  · rfl
  · split
    · rfl
    · split <;> rfl

/-- C9: calling the verify operation twice on the same stored state with no
intervening mutation yields identical verdicts: the first call leaves the
store unchanged, and a second call on the resulting store returns the same
result (the verdict is a deterministic function of the stored state and the
current time). -/
theorem verify_idempotent (st : DBState) (now : Int)
    (email licenseKey deviceId : Option String) :
    (handleLicenseVerify st now email licenseKey deviceId).2 = st ∧
    (handleLicenseVerify (handleLicenseVerify st now email licenseKey deviceId).2
        now email licenseKey deviceId).1
      = (handleLicenseVerify st now email licenseKey deviceId).1 := by
  refine ⟨verify_reads_only st now email licenseKey deviceId, ?_⟩
  rw [verify_reads_only st now email licenseKey deviceId]

/-- C4: for an existing user with no license document, the verify handler
returns the synthesized free-tier verdict: plan "Gratuit", message limit 10,
message count equal to the user's legacy counter, `canSendMessage` iff that
counter is below 10, expiry 365 days after now, empty warnings and alerts,
and the user's ban/suspension flags surfaced. -/
theorem missing_license_free_verdict (st : DBState) (now : Int) (e d : String)
    (lk : Option String) (u : UserDoc)
    (he : (e == "") = false) (hd : (d == "") = false)
    (hu : st.users.find? (fun w => w.email == e) = some u)
    (hl : st.licenses.lookup (effId u) = none) :
    ∃ v, (handleLicenseVerify st now (some e) lk (some d)).1 = .ok v
      ∧ v.plan = "Gratuit"
      ∧ v.messageLimit = 10
      ∧ v.messageCount = u.messageCount.getD 0
      ∧ v.canSendMessage = decide (u.messageCount.getD 0 < 10)
      ∧ v.expiresAt = now + 365 * 24 * 60 * 60 * 1000
      ∧ v.alerts = []
      ∧ v.warnings = []
      ∧ v.isBanned = u.isBanned.getD false
      ∧ v.isSuspended = u.isSuspended.getD false := by
  refine ⟨freeVerdict st now u, ?_, rfl, rfl, rfl, rfl, rfl, rfl, rfl, rfl, rfl⟩
  rw [verify_free st now e d lk u he hd hu hl]

/-- C4 witness: a user with legacy counter 3 and no license document gets
the free-tier verdict at time 5. -/
theorem missing_license_free_verdict_witness :
    ∃ v, (handleLicenseVerify st4 5 (some "u4@x") none (some "dev")).1 = .ok v
      ∧ v.plan = "Gratuit"
      ∧ v.messageLimit = 10
      ∧ v.messageCount = 3
      ∧ v.canSendMessage = true
      ∧ v.expiresAt = 5 + 365 * 24 * 60 * 60 * 1000
      ∧ v.alerts = []
      ∧ v.warnings = []
      ∧ v.isBanned = false
      ∧ v.isSuspended = false :=
  missing_license_free_verdict st4 5 "u4@x" "dev" none cUser4
    (by decide) (by decide) (by decide) (by decide)

/-- C10 (implicit): the synthesized free-tier verdict always has
`valid = false`, for every user without a license document, while
`canSendMessage` is the quota test and can simultaneously be true. -/
theorem free_verdict_never_valid (st : DBState) (now : Int) (e d : String)
    (lk : Option String) (u : UserDoc)
    (he : (e == "") = false) (hd : (d == "") = false)
    (hu : st.users.find? (fun w => w.email == e) = some u)
    (hl : st.licenses.lookup (effId u) = none) :
    ∃ v, (handleLicenseVerify st now (some e) lk (some d)).1 = .ok v
      ∧ v.valid = false
      ∧ v.canSendMessage = decide (u.messageCount.getD 0 < 10) := by
  refine ⟨freeVerdict st now u, ?_, rfl, rfl⟩
  rw [verify_free st now e d lk u he hd hu hl]

/-- C10 witness: a user who is not banned, not suspended, and under the
10-message quota still gets `valid = false`, with `canSendMessage = true` in
the same verdict. -/
theorem free_verdict_never_valid_witness :
    (cUser4.isBanned = none ∧ cUser4.isSuspended = none ∧ cUser4.messageCount = some 3)
    ∧ ∃ v, (handleLicenseVerify st4 5 (some "u4@x") none (some "dev")).1 = .ok v
      ∧ v.valid = false
      ∧ v.canSendMessage = true :=
  ⟨by decide,
    free_verdict_never_valid st4 5 "u4@x" "dev" none cUser4
      (by decide) (by decide) (by decide) (by decide)⟩

/-- C1 counterexample: a banned user with no license document gets the
synthesized free-tier verdict whose alerts list is empty, so the banned
critical modal alert is absent even though the user record has
`isBanned = true` (the verdict only surfaces the flag). -/
theorem banned_no_license_alerts_empty :
    cUserB.isBanned = some true
    ∧ (handleLicenseVerify stB 0 (some "u2@x") none (some "d")).1.verdict?.map Verdict.alerts
        = some []
    ∧ (handleLicenseVerify stB 0 (some "u2@x") none (some "d")).1.verdict?.map Verdict.isBanned
        = some true := by
  decide

/-- C1 amended: for every banned user who has a license document, the
verdict includes the banned critical non-dismissible modal alert carrying
the ban reason (default text when the reason is absent or empty), regardless
of the license's plan, quota, or expiry; a banned user with no license
document instead gets an empty alerts list with only the `isBanned` flag
surfaced. -/
theorem banned_alert_with_license (st : DBState) (now : Int) (e d : String)
    (lk : Option String) (u : UserDoc) (l : License)
    (he : (e == "") = false) (hd : (d == "") = false)
    (hu : st.users.find? (fun w => w.email == e) = some u)
    (hl : st.licenses.lookup (effId u) = some l)
    (hb : u.isBanned = some true) :
    ∃ v, (handleLicenseVerify st now (some e) lk (some d)).1 = .ok v
      ∧ bannedAlert u.banReason ∈ v.alerts
      ∧ (bannedAlert u.banReason).message
          = "Votre compte a été banni. Raison: " ++ jsOrS u.banReason "Non spécifiée"
      ∧ (bannedAlert u.banReason).severity = "critical"
      ∧ (bannedAlert u.banReason).type = "modal"
      ∧ (bannedAlert u.banReason).dismissible = false
      ∧ v.isBanned = true := by
  refine ⟨licenseVerdict st now u l, ?_, ?_, rfl, rfl, rfl, rfl, ?_⟩
  · rw [verify_found st now e d lk u l he hd hu hl]
  · show bannedAlert u.banReason ∈ (licenseVerdict st now u l).alerts
    simp [licenseVerdict, buildAlerts, hb]
  · simp [licenseVerdict, hb]

/-- C1 witness: the banned user `cUser1` holding a valid "Pro" license gets
the banned modal alert with the stored reason. -/
theorem banned_alert_with_license_witness :
    ∃ v, (handleLicenseVerify st1 0 (some "u1@x") none (some "dev")).1 = .ok v
      ∧ bannedAlert (some "fraude") ∈ v.alerts
      ∧ (bannedAlert (some "fraude")).message
          = "Votre compte a été banni. Raison: " ++ jsOrS (some "fraude") "Non spécifiée"
      ∧ (bannedAlert (some "fraude")).severity = "critical"
      ∧ (bannedAlert (some "fraude")).type = "modal"
      ∧ (bannedAlert (some "fraude")).dismissible = false
      ∧ v.isBanned = true :=
  banned_alert_with_license st1 0 "u1@x" "dev" none cUser1 cLicense1
    (by decide) (by decide) (by decide) (by decide) (by decide)

/-- C3: for every license with a plan other than "Gratuit" whose expiry is
strictly before now, the verdict has `valid = false` and contains the
critical non-dismissible "Licence Expirée" modal alert. -/
theorem expired_paid_invalid_with_alert (st : DBState) (now : Int) (e d : String)
    (lk : Option String) (u : UserDoc) (l : License)
    (he : (e == "") = false) (hd : (d == "") = false)
    (hu : st.users.find? (fun w => w.email == e) = some u)
    (hl : st.licenses.lookup (effId u) = some l)
    (hp : (l.plan == "Gratuit") = false) (hex : l.expiresAt < now) :
    ∃ v, (handleLicenseVerify st now (some e) lk (some d)).1 = .ok v
      ∧ v.valid = false
      ∧ expiredAlert ∈ v.alerts
      ∧ expiredAlert.severity = "critical"
      ∧ expiredAlert.type = "modal"
      ∧ expiredAlert.dismissible = false := by
  have hexp : isLicenseExpired l.expiresAt now = true := by
    simp [isLicenseExpired, hex]
  refine ⟨licenseVerdict st now u l, ?_, ?_, ?_, rfl, rfl, rfl⟩
  · rw [verify_found st now e d lk u l he hd hu hl]
  · show (licenseVerdict st now u l).valid = false
    cases hb : u.isBanned.getD false <;> cases hs : u.isSuspended.getD false <;>
      simp [licenseVerdict, validateLicense, hb, hs, hexp, hp]
  · show expiredAlert ∈ (licenseVerdict st now u l).alerts
    simp [licenseVerdict, buildAlerts, hexp, hp]

/-- C3 witness: the "Pro" license of `cUser3` expired at time 0; at time 10
the verdict is invalid and carries the expired modal alert. -/
theorem expired_paid_invalid_with_alert_witness :
    ∃ v, (handleLicenseVerify st3 10 (some "u3@x") none (some "dev")).1 = .ok v
      ∧ v.valid = false
      ∧ expiredAlert ∈ v.alerts
      ∧ expiredAlert.severity = "critical"
      ∧ expiredAlert.type = "modal"
      ∧ expiredAlert.dismissible = false :=
  expired_paid_invalid_with_alert st3 10 "u3@x" "dev" none cUser3 cLicense3
    (by decide) (by decide) (by decide) (by decide) (by decide) (by decide)

/-- C5 counterexample: a license document without a `messageCount` field and
with `messageLimit = 5` produces a verdict with `valid = true`,
`messageCount = 0`, `messageLimit = 5`, not expired — so the claimed formula
gives `true` — yet `canSendMessage = false`, because the code compares the
raw fields without the `|| 0` fallback and a comparison against an absent
field is false. -/
theorem canSend_raw_comparison_cex :
    cLicense5.messageCount = none
    ∧ res5.verdict?.map Verdict.valid = some true
    ∧ res5.verdict?.map Verdict.messageCount = some 0
    ∧ res5.verdict?.map Verdict.messageLimit = some 5
    ∧ isLicenseExpired cLicense5.expiresAt 0 = false
    ∧ res5.verdict?.map Verdict.canSendMessage = some false := by
  decide

/-- C5 amended: in every verdict for a user with a license document whose
`messageCount` and `messageLimit` fields are both present, `canSendMessage`
equals `valid AND messageCount < messageLimit AND NOT expired`; when either
field is absent the raw JavaScript comparison is false and so is
`canSendMessage`. -/
theorem canSend_formula_fields_present (st : DBState) (now : Int) (e d : String)
    (lk : Option String) (u : UserDoc) (l : License) (mc ml : Nat)
    (he : (e == "") = false) (hd : (d == "") = false)
    (hu : st.users.find? (fun w => w.email == e) = some u)
    (hl : st.licenses.lookup (effId u) = some l)
    (hmc : l.messageCount = some mc) (hml : l.messageLimit = some ml) :
    ∃ v, (handleLicenseVerify st now (some e) lk (some d)).1 = .ok v
      ∧ v.canSendMessage
          = (v.valid && decide (v.messageCount < v.messageLimit)
             && !(isLicenseExpired l.expiresAt now)) := by
  refine ⟨licenseVerdict st now u l, ?_, ?_⟩
  · rw [verify_found st now e d lk u l he hd hu hl]
  · simp [licenseVerdict, jsLtNat, hmc, hml]

/-- C5 witness: for the well-formed license `cLicense5w` (count 2, limit
100, not expired) the formula holds. -/
theorem canSend_formula_fields_present_witness :
    ∃ v, (handleLicenseVerify st5w 0 (some "u5@x") none (some "dev")).1 = .ok v
      ∧ v.canSendMessage
          = (v.valid && decide (v.messageCount < v.messageLimit)
             && !(isLicenseExpired cLicense5w.expiresAt 0)) :=
  canSend_formula_fields_present st5w 0 "u5@x" "dev" none cUser5 cLicense5w 2 100
    (by decide) (by decide) (by decide) (by decide) (by decide) (by decide)

/-- When the remaining-days value is zero or negative, every alert the
handler can push is a modal: the banner branch requires a positive value. -/
theorem buildAlerts_modal_of_nonpos (isExp : Bool) (plan : String) (dr : Int)
    (b : Bool) (r : Option String) (s : Bool) (hdr : dr ≤ 0) :
    ∀ a ∈ buildAlerts isExp plan dr b r s, a.type = "modal" := by
  intro a ha
  unfold buildAlerts at ha
  rcases List.mem_append.mp ha with h1 | h2
  · rcases List.mem_append.mp h1 with h3 | h4
    · split at h3
      · simp at h3
        subst h3
        rfl
      · split at h3
        · rename_i hc2
          exact absurd hc2.2 (by omega)
        · simp at h3
    · split at h4
      · simp at h4
        subst h4
        rfl
      · simp at h4
  · split at h2
    · simp at h2
      subst h2
      rfl
    · simp at h2

/-- C7: when the license is not expired and the remaining-days value is in
(0, 7], the dismissible warning banner with that value interpolated is
present; when the remaining-days value is zero or negative, no banner-type
alert is present. -/
theorem days_remaining_banner_boundary (st : DBState) (now : Int) (e d : String)
    (lk : Option String) (u : UserDoc) (l : License)
    (he : (e == "") = false) (hd : (d == "") = false)
    (hu : st.users.find? (fun w => w.email == e) = some u)
    (hl : st.licenses.lookup (effId u) = some l) :
    (isLicenseExpired l.expiresAt now = false →
      0 < getDaysRemaining l.expiresAt now →
      getDaysRemaining l.expiresAt now ≤ 7 →
      ∃ v, (handleLicenseVerify st now (some e) lk (some d)).1 = .ok v
        ∧ bannerAlert (getDaysRemaining l.expiresAt now) ∈ v.alerts
        ∧ (bannerAlert (getDaysRemaining l.expiresAt now)).dismissible = true
        ∧ (bannerAlert (getDaysRemaining l.expiresAt now)).type = "banner")
    ∧ (getDaysRemaining l.expiresAt now ≤ 0 →
      ∃ v, (handleLicenseVerify st now (some e) lk (some d)).1 = .ok v
        ∧ ∀ a ∈ v.alerts, a.type ≠ "banner") := by
  constructor
  · intro hne h0 h7
    refine ⟨licenseVerdict st now u l, ?_, ?_, rfl, rfl⟩
    · rw [verify_found st now e d lk u l he hd hu hl]
    · show bannerAlert _ ∈ (licenseVerdict st now u l).alerts
      simp [licenseVerdict, buildAlerts, hne, h0, h7]
  · intro hdr
    refine ⟨licenseVerdict st now u l, ?_, ?_⟩
    · rw [verify_found st now e d lk u l he hd hu hl]
    · intro a ha
      have ha' : a ∈ buildAlerts (isLicenseExpired l.expiresAt now) l.plan
          (getDaysRemaining l.expiresAt now) (u.isBanned.getD false) u.banReason
          (u.isSuspended.getD false) := ha
      have hm := buildAlerts_modal_of_nonpos _ _ _ _ _ _ hdr a ha'
      simp [hm]

/-- C7 witness: `cLicense7a` has exactly 7 days remaining at time 0 and the
banner appears; `cLicense7b` is 5 ms past expiry (remaining-days value 0)
and no banner-type alert appears. -/
theorem days_remaining_banner_boundary_witness :
    getDaysRemaining cLicense7a.expiresAt 0 = 7
    ∧ getDaysRemaining cLicense7b.expiresAt 0 = 0
    ∧ (∃ v, (handleLicenseVerify st7a 0 (some "u7@x") none (some "dev")).1 = .ok v
        ∧ bannerAlert (getDaysRemaining cLicense7a.expiresAt 0) ∈ v.alerts
        ∧ (bannerAlert (getDaysRemaining cLicense7a.expiresAt 0)).dismissible = true
        ∧ (bannerAlert (getDaysRemaining cLicense7a.expiresAt 0)).type = "banner")
    ∧ (∃ v, (handleLicenseVerify st7b 0 (some "u7@x") none (some "dev")).1 = .ok v
        ∧ ∀ a ∈ v.alerts, a.type ≠ "banner") :=
  ⟨by decide, by decide,
    (days_remaining_banner_boundary st7a 0 "u7@x" "dev" none cUser7 cLicense7a
      (by decide) (by decide) (by decide) (by decide)).1
      (by decide) (by decide) (by decide),
    (days_remaining_banner_boundary st7b 0 "u7@x" "dev" none cUser7 cLicense7b
      (by decide) (by decide) (by decide) (by decide)).2 (by decide)⟩

/-- C6: when the matched license key's `usedBy` field holds a non-empty user
id different from the requester's document id, activation fails with status
403 and returns the store unchanged (no license or user document is
written). -/
theorem activate_forbidden_no_mutation (st : DBState) (now : Int) (e lk d : String)
    (u : UserDoc) (kd : LicenseKeyDoc) (w : String)
    (he : (e == "") = false) (hlk : (lk == "") = false) (hd : (d == "") = false)
    (hu : st.users.find? (fun x => x.email == e) = some u)
    (hk : st.licenseKeys.find? (fun k => k.key == normalizeKey lk && k.isActive) = some kd)
    (hw : kd.usedBy = some w) (hw0 : (w == "") = false)
    (hwne : (w == u.docId) = false) :
    handleLicenseActivate st now (some e) (some lk) (some d)
      = (.error 403 "This license key is already in use by another account", st) := by
  unfold handleLicenseActivate
  simp [jsTruthyS, he, hlk, hd, hu, hk, hw, hw0, hwne]

/-- C6 witness: `cKey6` is bound to "otherUser"; activation by `cUser6`
returns 403 and the identical store. -/
theorem activate_forbidden_no_mutation_witness :
    handleLicenseActivate st6 0 (some "u6@x") (some "AB-CD-1234") (some "dev")
      = (.error 403 "This license key is already in use by another account", st6) :=
  activate_forbidden_no_mutation st6 0 "u6@x" "AB-CD-1234" "dev" cUser6 cKey6 "otherUser"
    (by decide) (by decide) (by decide) (by decide) (by decide) (by decide)
    (by decide) (by decide)

/-- C2 failing run: redeeming the fresh key `cKey2` (whose `usedBy` is
unset) succeeds and creates the user's license document, yet the
`licenseKeys` collection is returned byte-for-byte unchanged: `usedBy` is
still unset after the redemption, so the handler never records the
redeeming user's id on the key. -/
theorem activation_leaves_usedBy_unset :
    cKey2.usedBy = none
    ∧ res2cb.1.isOk = true
    ∧ res2cb.2.licenses.map Prod.fst = ["u2a"]
    ∧ res2cb.2.licenseKeys = [cKey2]
    ∧ res2cb.2.licenseKeys.map LicenseKeyDoc.usedBy = [none] := by
  decide

/-- C8: `verifyAdminToken` and `isAdminUser` fail closed: a missing
authorization header, a header without the Bearer scheme, a token-decode
error, or a user-fetch error (including user-not-found) all yield
`isAdmin = false`; both functions are total, so no exception reaches the
caller. -/
theorem admin_auth_fails_closed (auth : AuthProvider) :
    (verifyAdminToken auth none).isAdmin = false
    ∧ (∀ s, jsStartsWith s "Bearer " = false →
        (verifyAdminToken auth (some s)).isAdmin = false)
    ∧ (∀ s err, auth.verifyIdToken (s.drop 7) = .error err →
        (verifyAdminToken auth (some s)).isAdmin = false)
    ∧ (∀ uid err, auth.getUser uid = .error err → isAdminUser auth uid = false) := by
  refine ⟨rfl, ?_, ?_, ?_⟩
  · intro s hs
    simp [verifyAdminToken, hs]
  · intro s err herr
    unfold verifyAdminToken
    cases hb : jsStartsWith s "Bearer " <;> simp [hb, herr]
  · intro uid err herr
    simp [isAdminUser, herr]

/-- C8 witness: on a provider whose every call fails, a missing header, a
non-Bearer header, a Bearer header with an undecodable token, and a user
fetch all yield the non-admin default. -/
theorem admin_auth_fails_closed_witness :
    (verifyAdminToken cAuthFail none).isAdmin = false
    ∧ (verifyAdminToken cAuthFail (some "Token abc")).isAdmin = false
    ∧ (verifyAdminToken cAuthFail (some "Bearer abc")).isAdmin = false
    ∧ isAdminUser cAuthFail "u1" = false :=
  ⟨(admin_auth_fails_closed cAuthFail).1,
   (admin_auth_fails_closed cAuthFail).2.1 "Token abc" (by decide),
   (admin_auth_fails_closed cAuthFail).2.2.1 "Bearer abc" "invalid-token" rfl,
   (admin_auth_fails_closed cAuthFail).2.2.2 "u1" "user-not-found" rfl⟩

end LicenseApp
